import Mathlib

/-!
Verification development for the vk-mem-rs crate (src/src/lib.rs), a Rust
wrapper over the Vulkan Memory Allocator engine.  The wrapper's own logic is
embedded directly from the source.  The engine behind the FFI boundary is only
declared by the crate, so the fragments of engine behaviour that the
properties below depend on are modelled from the specification and marked as
such in their doc comments.  Rust machine integers are embedded as `Nat` (and
result codes, which are i32 values, as `Int`), with explicit reduction modulo
`2 ^ w` exactly where the source performs a cast; `usize` is modelled as
64 bits wide.
-/

/-- Raw Vulkan result code VK_SUCCESS (value 0). -/
def VK_SUCCESS : Int := 0

/-- Raw Vulkan result code VK_INCOMPLETE (value 5), one of the nonnegative
(success, non-error) Vulkan status codes. -/
def VK_INCOMPLETE : Int := 5

/-- Raw Vulkan result code VK_ERROR_OUT_OF_DEVICE_MEMORY (value -2). -/
def VK_ERROR_OUT_OF_DEVICE_MEMORY : Int := -2

/-- Vulkan partitions result codes into success statuses (nonnegative values
such as VK_SUCCESS and VK_INCOMPLETE) and error codes (negative values). -/
def isSuccessStatus (r : Int) : Bool := decide (0 ≤ r)

/-- Embeds fn ffi_to_result (src/src/lib.rs lines 310-316): a match that sends
vk::Result::SUCCESS to Ok(()) and every other code to Err carrying it. -/
def ffi_to_result (result : Int) : Except Int Unit :=
  if result = VK_SUCCESS then Except.ok () else Except.error result

/-- Bit constant AllocationCreateFlags::STRATEGY_BEST_FIT
(src/src/lib.rs line 547). -/
def STRATEGY_BEST_FIT : Nat := 0x00010000

/-- Bit constant AllocationCreateFlags::STRATEGY_WORST_FIT
(src/src/lib.rs line 551). -/
def STRATEGY_WORST_FIT : Nat := 0x00020000

/-- Bit constant AllocationCreateFlags::STRATEGY_FIRST_FIT
(src/src/lib.rs line 558). -/
def STRATEGY_FIRST_FIT : Nat := 0x00040000

/-- Bit constant AllocationCreateFlags::STRATEGY_MIN_MEMORY
(src/src/lib.rs line 561). -/
def STRATEGY_MIN_MEMORY : Nat := 0x00010000

/-- Bit constant AllocationCreateFlags::STRATEGY_MIN_TIME
(src/src/lib.rs line 564). -/
def STRATEGY_MIN_TIME : Nat := 0x00040000

/-- Bit constant AllocationCreateFlags::STRATEGY_MIN_FRAGMENTATION
(src/src/lib.rs line 567). -/
def STRATEGY_MIN_FRAGMENTATION : Nat := 0x00020000

/-- Bit constant AllocationCreateFlags::STRATEGY_MASK
(src/src/lib.rs line 570), written exactly as in the source. -/
def STRATEGY_MASK : Nat := 0x00010000 ||| 0x00020000 ||| 0x00040000

/-- Embeds ffi::VmaDefragmentationStats, the raw stats struct filled by the
engine (bytesMoved / bytesFreed are VkDeviceSize, the counts are u32). -/
structure VmaDefragmentationStats where
  bytesMoved : Nat
  bytesFreed : Nat
  allocationsMoved : Nat
  deviceMemoryBlocksFreed : Nat
deriving Repr, DecidableEq

/-- Embeds pub struct DefragmentationStats (src/src/lib.rs lines 828-841),
the Rust-facing statistics returned by defragment / defragmentation_end. -/
structure DefragmentationStats where
  bytes_moved : Nat
  bytes_freed : Nat
  allocations_moved : Nat
  device_memory_blocks_freed : Nat
deriving Repr, DecidableEq

/-- Embeds pub struct DefragmentationContext (src/src/lib.rs lines 737-742):
raw stats plus one Bool32 "changed" slot per input allocation (the opaque
engine handle carries no data relevant here and is omitted). -/
structure DefragmentationContext where
  stats : VmaDefragmentationStats
  changed : List Nat
deriving Repr, DecidableEq

/-- Embeds the context initialization inside Allocator::defragmentation_begin
(src/src/lib.rs lines 1451-1460): stats zeroed and
changed = vec![vk::FALSE; info.allocations.len()], i.e. one Bool32 slot
per input allocation, each initially 0. -/
def defragmentation_begin_context (allocationCount : Nat) : DefragmentationContext :=
  { stats := { bytesMoved := 0, bytesFreed := 0, allocationsMoved := 0,
               deviceMemoryBlocksFreed := 0 },
    changed := List.replicate allocationCount 0 }

/-- Modelled from the spec: the engine behind vmaDefragmentationBegin /
vmaDefragmentationEnd (not under src/) reports each moved input allocation by
writing VK_TRUE (1) into its slot of the changed array and leaves VK_FALSE (0)
in the slots of allocations it left in place. -/
def engineMarkChanged (moved : List Bool) : List Nat :=
  moved.map (fun b => if b then 1 else 0)

/-- Embeds Allocator::defragmentation_end (src/src/lib.rs lines 1491-1507):
the engine status from vmaDefragmentationEnd (a parameter, since the engine is
behind FFI) is routed through ffi_to_result; on success the Bool32 changed
array is decoded with (c == 1) and the raw stats are repackaged field by
field. -/
def defragmentation_end (engineStatus : Int) (context : DefragmentationContext) :
    Except Int (DefragmentationStats × List Bool) :=
  match ffi_to_result engineStatus with
  | Except.error e => Except.error e
  | Except.ok _ =>
      Except.ok
        ({ bytes_moved := context.stats.bytesMoved,
           bytes_freed := context.stats.bytesFreed,
           allocations_moved := context.stats.allocationsMoved,
           device_memory_blocks_freed := context.stats.deviceMemoryBlocksFreed },
         context.changed.map (fun change => change == 1))

/-- A concrete empty defragmentation context, used as the input of the C1
counterexample. -/
def emptyDefragContext : DefragmentationContext :=
  { stats := { bytesMoved := 0, bytesFreed := 0, allocationsMoved := 0,
               deviceMemoryBlocksFreed := 0 },
    changed := [] }

/-- Embeds pub struct DefragmentationInfo (src/src/lib.rs lines 748-759):
max_bytes_to_move is a Rust usize (64 bits here), max_allocations_to_move
a u32. -/
structure DefragmentationInfo where
  max_bytes_to_move : Nat
  max_allocations_to_move : Nat
deriving Repr, DecidableEq

/-- Constant ash::vk::WHOLE_SIZE, the all-ones u64. -/
def WHOLE_SIZE : Nat := 2 ^ 64 - 1

/-- Constant std::u32::MAX. -/
def U32_MAX : Nat := 2 ^ 32 - 1

/-- Embeds impl Default for DefragmentationInfo (src/src/lib.rs lines
762-769): max_bytes_to_move = ash::vk::WHOLE_SIZE as usize (the cast of the
u64 value into 64-bit usize, hence the reduction modulo 2 ^ 64) and
max_allocations_to_move = std::u32::MAX. -/
def DefragmentationInfo.default : DefragmentationInfo :=
  { max_bytes_to_move := WHOLE_SIZE % 2 ^ 64,
    max_allocations_to_move := U32_MAX }

/-- Embeds ffi::VmaDefragmentationInfo, the raw budget pair handed to
vmaDefragment (maxBytesToMove is a VkDeviceSize, i.e. u64). -/
structure VmaDefragmentationInfo where
  maxBytesToMove : Nat
  maxAllocationsToMove : Nat
deriving Repr, DecidableEq

/-- Embeds the ffi_info computation inside Allocator::defragment
(src/src/lib.rs lines 1559-1568): Some(info) casts info.max_bytes_to_move
from usize to VkDeviceSize (u64, hence the reduction modulo 2 ^ 64) and None
passes ash::vk::WHOLE_SIZE with std::u32::MAX. -/
def defragment_ffi_info (defrag_info : Option DefragmentationInfo) :
    VmaDefragmentationInfo :=
  match defrag_info with
  | some info =>
      { maxBytesToMove := info.max_bytes_to_move % 2 ^ 64,
        maxAllocationsToMove := info.max_allocations_to_move }
  | none =>
      { maxBytesToMove := WHOLE_SIZE,
        maxAllocationsToMove := U32_MAX }

/-- Embeds Allocator::defragment (src/src/lib.rs lines 1553-1593) up to the
FFI boundary: the wrapper builds ffi_info from defrag_info and hands it,
together with the allocations slice, to vmaDefragment; the engine behind the
FFI is a parameter, so whatever it computes depends only on what the wrapper
passes it. -/
def defragment {A R : Type} (engine : VmaDefragmentationInfo → List A → R)
    (allocations : List A) (defrag_info : Option DefragmentationInfo) : R :=
  engine (defragment_ffi_info defrag_info) allocations

/-- Modelled from the spec: the engine-side record behind a VmaAllocation
handle (the engine is not under src/), restricted to the fields the
lost-allocation lifecycle reads: the can-become-lost capability, the lost
flag, and the last-used-frame stamp. -/
structure ModelAllocation where
  canBecomeLost : Bool
  lost : Bool
  lastUseFrameIndex : Nat
deriving Repr, DecidableEq

/-- Modelled from the spec: only an allocation created with the
can-become-lost capability can ever be in the lost state. -/
def wellFormedAllocation (a : ModelAllocation) : Prop :=
  a.canBecomeLost = false → a.lost = false

/-- Modelled from the spec: vmaTouchAllocation (behind FFI; the Rust wrapper
Allocator::touch_allocation at src/src/lib.rs lines 1267-1270 only compares
its Bool32 result with vk::TRUE) returns false without mutation if the
allocation is already lost, and otherwise atomically stamps
last-used-frame = currentFrame and returns true. -/
def touch_allocation (currentFrame : Nat) (a : ModelAllocation) :
    Bool × ModelAllocation :=
  if a.lost then (false, a)
  else (true, { a with lastUseFrameIndex := currentFrame })

/-- Modelled from the spec: the eviction predicate of the lost-allocation
lifecycle — an allocation with the can-become-lost capability that is not
already lost expires exactly when lastUseFrameIndex + frameInUseCount lies
strictly before the current frame (equivalently, it cannot become lost while
lastUseFrameIndex >= currentFrameIndex - frameInUseCount). -/
def allocationExpired (frameInUseCount currentFrame : Nat)
    (a : ModelAllocation) : Bool :=
  a.canBecomeLost && !a.lost &&
    decide (a.lastUseFrameIndex + frameInUseCount < currentFrame)

/-- Modelled from the spec: vmaMakePoolAllocationsLost (behind FFI; the Rust
wrapper Allocator::make_pool_allocations_lost at src/src/lib.rs lines
1088-1092 only forwards the call) marks every expired allocation of the pool
lost and returns the updated pool together with the count of allocations it
marked. -/
def make_pool_allocations_lost (frameInUseCount currentFrame : Nat)
    (pool : List ModelAllocation) : List ModelAllocation × Nat :=
  (pool.map (fun a =>
      if allocationExpired frameInUseCount currentFrame a
      then { a with lost := true } else a),
   (pool.filter (fun a => allocationExpired frameInUseCount currentFrame a)).length)

/-- A concrete can-become-lost allocation last touched at frame 5, used by
witnesses. -/
def sampleAllocation : ModelAllocation :=
  { canBecomeLost := true, lost := false, lastUseFrameIndex := 5 }

/-- Embeds the four budget fields of pub struct DefragmentationInfo2
(src/src/lib.rs lines 775-825) that Allocator::defragmentation_begin forwards
to the engine. -/
structure DefragmentationBudgets where
  max_cpu_bytes_to_move : Nat
  max_cpu_allocations_to_move : Nat
  max_gpu_bytes_to_move : Nat
  max_gpu_allocations_to_move : Nat
deriving Repr, DecidableEq

/-- Modelled from the spec: one pass of the defragmentation planner over the
candidate move sizes under a byte budget and a count budget — a move is taken
only while it fits both remaining budgets; the untaken moves are returned for
the next pass. -/
def planPass : Nat → Nat → List Nat → List Nat × List Nat
  | _, _, [] => ([], [])
  | maxBytes, maxCount, m :: ms =>
    if m ≤ maxBytes ∧ 0 < maxCount then
      let rest := planPass (maxBytes - m) (maxCount - 1) ms
      (m :: rest.1, rest.2)
    else
      let rest := planPass maxBytes maxCount ms
      (rest.1, m :: rest.2)

/-- Modelled from the spec: the statistics the engine accumulates over a
begin/end defragmentation pass — CPU-pass moves are chosen under the CPU
budgets, the remaining eligible moves go to the GPU pass under the GPU
budgets, and the GPU pass is skipped entirely when no command buffer was
supplied; the result is (bytes moved, allocations moved). -/
def defragmentation_pass_stats (b : DefragmentationBudgets)
    (hasCommandBuffer : Bool) (moves : List Nat) : Nat × Nat :=
  let cpu := planPass b.max_cpu_bytes_to_move b.max_cpu_allocations_to_move moves
  let gpu :=
    if hasCommandBuffer then
      (planPass b.max_gpu_bytes_to_move b.max_gpu_allocations_to_move cpu.2).1
    else []
  (cpu.1.sum + gpu.sum, cpu.1.length + gpu.length)

/-- Modelled from the spec: per-heap accounting under a configured byte cap
(heap_size_limits, src/src/lib.rs lines 274-297) — the heap is the list of
live allocation sizes; a request that would push the total over the cap fails
with VK_ERROR_OUT_OF_DEVICE_MEMORY and leaves the heap unchanged, any other
request succeeds and records its size. -/
def heap_allocate (limit size : Nat) (heap : List Nat) : Int × List Nat :=
  if heap.sum + size ≤ limit then (VK_SUCCESS, size :: heap)
  else (VK_ERROR_OUT_OF_DEVICE_MEMORY, heap)

/-- Modelled from the spec: freeing an allocation returns its bytes to the
heap accounting. -/
def heap_free (size : Nat) (heap : List Nat) : List Nat :=
  heap.erase size

/-- Heap states reachable from the empty heap through allocate and free
requests under the configured cap. -/
inductive HeapReachable (limit : Nat) : List Nat → Prop where
  | init : HeapReachable limit []
  | alloc (size : Nat) {heap : List Nat} (h : HeapReachable limit heap) :
      HeapReachable limit (heap_allocate limit size heap).2
  | free (size : Nat) {heap : List Nat} (h : HeapReachable limit heap) :
      HeapReachable limit (heap_free size heap)

/-- Modelled from the spec: vmaAllocateMemoryPages (behind FFI) attempts
count allocations in order with the same parameters; on success it returns
the created allocations in order, and a single failure frees every allocation
created earlier in the call and returns that one error with the state rolled
back. -/
def vmaAllocateMemoryPages (limit size : Nat) :
    Nat → List Nat → Int × List Nat × List Nat
  | 0, heap => (VK_SUCCESS, [], heap)
  | count + 1, heap =>
    let first := heap_allocate limit size heap
    if first.1 = VK_SUCCESS then
      let rest := vmaAllocateMemoryPages limit size count first.2
      if rest.1 = VK_SUCCESS then (VK_SUCCESS, size :: rest.2.1, rest.2.2)
      else (rest.1, [], heap)
    else (first.1, [], heap)

/-- Embeds the pairing loop of Allocator::allocate_memory_pages
(src/src/lib.rs lines 1164-1167): the allocation vector is zipped with the
info vector in order and each pair is repackaged. -/
def pair_allocations {A B : Type} (allocations : List A) (infos : List B) :
    List (A × B) :=
  (allocations.zip infos).map (fun p => (p.1, p.2))

/-- Embeds Allocator::allocate_memory_pages (src/src/lib.rs lines 1145-1170)
over the modelled engine: the engine result is routed through ffi_to_result,
and on success the created allocations are zipped with their infos (in this
model an allocation and its info are both the recorded size). -/
def allocate_memory_pages (limit size count : Nat) (heap : List Nat) :
    Except Int (List (Nat × Nat) × List Nat) :=
  let result := vmaAllocateMemoryPages limit size count heap
  match ffi_to_result result.1 with
  | Except.error e => Except.error e
  | Except.ok _ =>
      Except.ok (pair_allocations result.2.1 result.2.1, result.2.2)

/-- C9: ffi_to_result returns Ok(()) exactly when the input result code is
VK_SUCCESS, and on any other code it returns Err carrying that exact code, so
provider-surfaced result codes propagate unchanged and every failure is a
distinguishable error value. -/
theorem C9_ffi_to_result_exact (r : Int) :
    (ffi_to_result r = Except.ok () ↔ r = VK_SUCCESS) ∧
    (r ≠ VK_SUCCESS → ffi_to_result r = Except.error r) := by
  constructor
  · constructor
    · intro h
      by_contra hne
      simp [ffi_to_result, hne] at h
    · intro h
      simp [ffi_to_result, h]
  · intro h
    simp [ffi_to_result, h]

/-- Witness for C9 at the concrete error code -2
(VK_ERROR_OUT_OF_DEVICE_MEMORY): it is propagated unchanged. -/
theorem C9_ffi_to_result_exact_witness :
    ffi_to_result (-2) = Except.error (-2) :=
  (C9_ffi_to_result_exact (-2)).2 (by decide)

/-- C2: the legacy strategy flags alias the fit-strategy flags at identical
numeric values (MIN_MEMORY = BEST_FIT = 0x00010000,
MIN_FRAGMENTATION = WORST_FIT = 0x00020000,
MIN_TIME = FIRST_FIT = 0x00040000) and STRATEGY_MASK is exactly the union of
the three strategy bits. -/
theorem C2_strategy_flags_alias :
    STRATEGY_MIN_MEMORY = STRATEGY_BEST_FIT ∧
    STRATEGY_BEST_FIT = 0x00010000 ∧
    STRATEGY_MIN_FRAGMENTATION = STRATEGY_WORST_FIT ∧
    STRATEGY_WORST_FIT = 0x00020000 ∧
    STRATEGY_MIN_TIME = STRATEGY_FIRST_FIT ∧
    STRATEGY_FIRST_FIT = 0x00040000 ∧
    STRATEGY_MASK = (STRATEGY_BEST_FIT ||| STRATEGY_WORST_FIT ||| STRATEGY_FIRST_FIT) := by
  refine ⟨rfl, rfl, rfl, rfl, rfl, rfl, rfl⟩

/-- C1 counterexample: at the concrete engine status VK_INCOMPLETE — a Vulkan
success status — the wrapper's defragmentation_end does not return Ok as the
claim states; it returns Err(VK_INCOMPLETE). -/
theorem C1_counterexample_incomplete :
    isSuccessStatus VK_INCOMPLETE = true ∧
    defragmentation_end VK_INCOMPLETE emptyDefragContext
      = Except.error VK_INCOMPLETE ∧
    ¬ ∃ out, defragmentation_end VK_INCOMPLETE emptyDefragContext
      = Except.ok out := by
  refine ⟨rfl, rfl, ?_⟩
  rintro ⟨out, h⟩
  simp [defragmentation_end, ffi_to_result, VK_INCOMPLETE, VK_SUCCESS] at h

/-- C1 (amended): for every engine status code, the defragmentation wrapper
returns Ok exactly when the status is VK_SUCCESS; every other status —
including the success status VK_INCOMPLETE produced when budgets truncated
the plan — is surfaced as Err carrying that status, as the wrapper's own
documentation states. -/
theorem C1_wrapper_ok_iff_vk_success (r : Int) (ctx : DefragmentationContext) :
    ((∃ out, defragmentation_end r ctx = Except.ok out) ↔ r = VK_SUCCESS) ∧
    isSuccessStatus VK_INCOMPLETE = true ∧
    defragmentation_end VK_INCOMPLETE ctx = Except.error VK_INCOMPLETE := by
  refine ⟨⟨?_, ?_⟩, rfl, ?_⟩
  · rintro ⟨out, h⟩
    by_contra hne
    simp [defragmentation_end, ffi_to_result, hne] at h
  · intro h
    subst h
    exact ⟨_, rfl⟩
  · simp [defragmentation_end, ffi_to_result, VK_INCOMPLETE, VK_SUCCESS]

/-- C10: calling Allocator::defragment with defrag_info = None is observably
equivalent to calling it with Some(DefragmentationInfo::default()): both hand
the engine the same no-limit budgets (maxBytesToMove = WHOLE_SIZE,
maxAllocationsToMove = u32::MAX), so the results coincide for every engine
and every allocations slice. -/
theorem C10_defragment_none_eq_default {A R : Type}
    (engine : VmaDefragmentationInfo → List A → R) (allocations : List A) :
    defragment engine allocations none
      = defragment engine allocations (some DefragmentationInfo.default) := by
  have hmod : WHOLE_SIZE % 18446744073709551616 = WHOLE_SIZE := by
    norm_num [WHOLE_SIZE]
  simp [defragment, defragment_ffi_info, DefragmentationInfo.default, hmod]

/-- C3: touch_allocation returns false without mutating the allocation when
it is already lost; otherwise it stamps the allocation's last-used-frame with
the current frame and returns true; and for a well-formed allocation created
without the can-become-lost capability it always returns true. -/
theorem C3_touch_allocation_spec (currentFrame : Nat) (a : ModelAllocation)
    (hwf : wellFormedAllocation a) :
    (a.lost = true → touch_allocation currentFrame a = (false, a)) ∧
    (a.lost = false →
      touch_allocation currentFrame a
        = (true, { a with lastUseFrameIndex := currentFrame })) ∧
    (a.canBecomeLost = false → (touch_allocation currentFrame a).1 = true) := by
  refine ⟨?_, ?_, ?_⟩
  · intro h
    simp [touch_allocation, h]
  · intro h
    simp [touch_allocation, h]
  · intro h
    simp [touch_allocation, hwf h]

/-- Witness for C3 at frame 7 on the concrete live allocation
sampleAllocation: it is stamped with frame 7 and the call returns true. -/
theorem C3_touch_allocation_spec_witness :
    touch_allocation 7 sampleAllocation
      = (true, { canBecomeLost := true, lost := false, lastUseFrameIndex := 7 }) :=
  (C3_touch_allocation_spec 7 sampleAllocation (by intro h; rfl)).2.1 rfl

/-- Decoding the engine's Bool32 marks with the wrapper's (c == 1) test
recovers exactly the per-allocation moved flags. -/
theorem engineMarkChanged_decode (moved : List Bool) :
    (engineMarkChanged moved).map (fun change => change == 1) = moved := by
  induction moved with
  | nil => rfl
  | cons b ms ih =>
    cases b <;> simp [engineMarkChanged] at ih ⊢ <;> exact ih

/-- C8: the defragmentation context carries exactly one changed flag per
input allocation — defragmentation_begin on n allocations creates a changed
array of length n decoding to all-false, and defragmentation_end returns a
boolean vector of that same length n whose i-th entry is true exactly when
the engine marked the i-th input allocation as moved. -/
theorem C8_changed_flags_roundtrip (n : Nat) (moved : List Bool)
    (s : VmaDefragmentationStats) (hlen : moved.length = n) :
    (defragmentation_begin_context n).changed.length = n ∧
    (defragmentation_begin_context n).changed.map (fun change => change == 1)
      = List.replicate n false ∧
    defragmentation_end VK_SUCCESS
        { stats := s, changed := engineMarkChanged moved }
      = Except.ok
          ({ bytes_moved := s.bytesMoved, bytes_freed := s.bytesFreed,
             allocations_moved := s.allocationsMoved,
             device_memory_blocks_freed := s.deviceMemoryBlocksFreed },
           moved) ∧
    moved.length = n := by
  refine ⟨by simp [defragmentation_begin_context], ?_, ?_, hlen⟩
  · simp [defragmentation_begin_context, List.map_replicate]
  · show Except.ok (_, (engineMarkChanged moved).map (fun change => change == 1))
      = _
    rw [engineMarkChanged_decode]

/-- Witness for C8 at n = 3 with the engine marking exactly the first and
third input allocations as moved. -/
theorem C8_changed_flags_roundtrip_witness :
    (defragmentation_begin_context 3).changed.length = 3 ∧
    (defragmentation_begin_context 3).changed.map (fun change => change == 1)
      = List.replicate 3 false ∧
    defragmentation_end VK_SUCCESS
        { stats := { bytesMoved := 40, bytesFreed := 0, allocationsMoved := 2,
                     deviceMemoryBlocksFreed := 0 },
          changed := engineMarkChanged [true, false, true] }
      = Except.ok
          ({ bytes_moved := 40, bytes_freed := 0, allocations_moved := 2,
             device_memory_blocks_freed := 0 },
           [true, false, true]) ∧
    List.length [true, false, true] = 3 :=
  C8_changed_flags_roundtrip 3 [true, false, true]
    { bytesMoved := 40, bytesFreed := 0, allocationsMoved := 2,
      deviceMemoryBlocksFreed := 0 } rfl

/-- C5: an allocation with the can-become-lost capability, last touched at
frame F and not already lost, is left untouched (and uncounted) by
make_pool_allocations_lost at any current frame F2 with
F2 <= F + frameInUseCount, and is marked lost and counted in the returned
lost count at any current frame F2 with F2 > F + frameInUseCount. -/
theorem C5_lost_allocation_window (c F2 : Nat) (pool : List ModelAllocation)
    (i : Nat) (h : i < pool.length)
    (h2 : i < (make_pool_allocations_lost c F2 pool).1.length)
    (hcl : pool[i].canBecomeLost = true)
    (hnl : pool[i].lost = false) :
    (F2 ≤ pool[i].lastUseFrameIndex + c →
        (make_pool_allocations_lost c F2 pool).1[i] = pool[i]) ∧
    (pool[i].lastUseFrameIndex + c < F2 →
        (make_pool_allocations_lost c F2 pool).1[i].lost = true ∧
        1 ≤ (make_pool_allocations_lost c F2 pool).2) := by
  constructor
  · intro hle
    have hexp : allocationExpired c F2 pool[i] = false := by
      simp [allocationExpired, hcl, hnl]
      omega
    simp [make_pool_allocations_lost, hexp]
  · intro hgt
    have hexp : allocationExpired c F2 pool[i] = true := by
      simp [allocationExpired, hcl, hnl]
      omega
    refine ⟨by simp [make_pool_allocations_lost, hexp], ?_⟩
    have hmem : pool[i] ∈ pool := List.getElem_mem h
    have hmemf : pool[i]
        ∈ pool.filter (fun a => allocationExpired c F2 a) :=
      List.mem_filter.mpr ⟨hmem, hexp⟩
    have hpos : 0 < (pool.filter (fun a => allocationExpired c F2 a)).length :=
      List.length_pos.mpr (List.ne_nil_of_mem hmemf)
    simpa [make_pool_allocations_lost] using hpos

/-- Witness for C5: in the one-allocation pool [sampleAllocation] (stamp 5)
with frame_in_use_count 2, the pass at current frame 8 (> 5 + 2) marks the
allocation lost and reports one eviction. -/
theorem C5_lost_allocation_window_witness :
    ((make_pool_allocations_lost 2 8 [sampleAllocation]).1.get
        ⟨0, by simp [make_pool_allocations_lost]⟩).lost = true ∧
    1 ≤ (make_pool_allocations_lost 2 8 [sampleAllocation]).2 := by
  have hc := (C5_lost_allocation_window 2 8 [sampleAllocation] 0 (by simp)
      (by simp [make_pool_allocations_lost]) rfl rfl).2
      (by norm_num [sampleAllocation])
  simpa using hc

/-- A planner pass never takes more bytes than its byte budget. -/
theorem planPass_sum_le (ms : List Nat) :
    ∀ b c, (planPass b c ms).1.sum ≤ b := by
  induction ms with
  | nil => intro b c; simp [planPass]
  | cons m ms ih =>
    intro b c
    by_cases hmc : m ≤ b ∧ 0 < c
    · have hrest := ih (b - m) (c - 1)
      simp only [planPass, if_pos hmc, List.sum_cons]
      omega
    · simpa only [planPass, if_neg hmc] using ih b c

/-- A planner pass never takes more moves than its count budget. -/
theorem planPass_length_le (ms : List Nat) :
    ∀ b c, (planPass b c ms).1.length ≤ c := by
  induction ms with
  | nil => intro b c; simp [planPass]
  | cons m ms ih =>
    intro b c
    by_cases hmc : m ≤ b ∧ 0 < c
    · have hrest := ih (b - m) (c - 1)
      simp only [planPass, if_pos hmc, List.length_cons]
      omega
    · simpa only [planPass, if_neg hmc] using ih b c

/-- The modelled engine statistics of one whole defragmentation pass stay
within the summed CPU and GPU budgets. -/
theorem defragmentation_pass_stats_le (b : DefragmentationBudgets)
    (hasCommandBuffer : Bool) (moves : List Nat) :
    (defragmentation_pass_stats b hasCommandBuffer moves).1
        ≤ b.max_cpu_bytes_to_move + b.max_gpu_bytes_to_move ∧
    (defragmentation_pass_stats b hasCommandBuffer moves).2
        ≤ b.max_cpu_allocations_to_move + b.max_gpu_allocations_to_move := by
  have hcs := planPass_sum_le moves b.max_cpu_bytes_to_move
    b.max_cpu_allocations_to_move
  have hcl := planPass_length_le moves b.max_cpu_bytes_to_move
    b.max_cpu_allocations_to_move
  cases hasCommandBuffer with
  | false =>
    constructor <;> simp only [defragmentation_pass_stats] <;> simp <;> omega
  | true =>
    have hgs := planPass_sum_le
      (planPass b.max_cpu_bytes_to_move b.max_cpu_allocations_to_move moves).2
      b.max_gpu_bytes_to_move b.max_gpu_allocations_to_move
    have hgl := planPass_length_le
      (planPass b.max_cpu_bytes_to_move b.max_cpu_allocations_to_move moves).2
      b.max_gpu_bytes_to_move b.max_gpu_allocations_to_move
    constructor <;> simp only [defragmentation_pass_stats] <;> simp <;> omega

/-- C4: the statistics reported after defragmentation_end never exceed the
budgets given to defragmentation_begin: bytes_moved is at most
max_cpu_bytes_to_move + max_gpu_bytes_to_move and allocations_moved is at
most max_cpu_allocations_to_move + max_gpu_allocations_to_move, for every
budget set, every candidate move list, and whether or not a command buffer
enables the GPU pass. -/
theorem C4_defrag_budget_respect (b : DefragmentationBudgets)
    (hasCommandBuffer : Bool) (moves : List Nat) (freed blocksFreed : Nat)
    (changed : List Nat) :
    ∃ out,
      defragmentation_end VK_SUCCESS
          { stats :=
              { bytesMoved := (defragmentation_pass_stats b hasCommandBuffer moves).1,
                bytesFreed := freed,
                allocationsMoved := (defragmentation_pass_stats b hasCommandBuffer moves).2,
                deviceMemoryBlocksFreed := blocksFreed },
            changed := changed }
        = Except.ok out ∧
      out.1.bytes_moved ≤ b.max_cpu_bytes_to_move + b.max_gpu_bytes_to_move ∧
      out.1.allocations_moved
        ≤ b.max_cpu_allocations_to_move + b.max_gpu_allocations_to_move := by
  refine ⟨_, rfl, ?_, ?_⟩
  · exact (defragmentation_pass_stats_le b hasCommandBuffer moves).1
  · exact (defragmentation_pass_stats_le b hasCommandBuffer moves).2

/-- Erasing an element never increases the sum of a list of sizes. -/
theorem sum_erase_le (a : Nat) (l : List Nat) : (l.erase a).sum ≤ l.sum := by
  induction l with
  | nil => simp
  | cons b l ih =>
    by_cases hb : b = a
    · simp [List.erase_cons, hb]
    · simp [List.erase_cons, hb]
      omega

/-- C6: under a configured per-heap byte cap, every heap state reachable
through allocate and free requests keeps its total allocated bytes within
the cap, and any request that would exceed the cap fails with
VK_ERROR_OUT_OF_DEVICE_MEMORY while leaving the heap — and hence every
previously granted allocation — unchanged. -/
theorem C6_heap_cap_invariant (limit : Nat) (heap : List Nat)
    (hr : HeapReachable limit heap) :
    heap.sum ≤ limit ∧
    ∀ size, limit < heap.sum + size →
      heap_allocate limit size heap = (VK_ERROR_OUT_OF_DEVICE_MEMORY, heap) := by
  have hsum : heap.sum ≤ limit := by
    induction hr with
    | init => simp
    | alloc size h ih =>
      unfold heap_allocate
      split
      · next hle => simp only [List.sum_cons]; omega
      · exact ih
    | free size h ih => exact le_trans (sum_erase_le size _) ih
  refine ⟨hsum, ?_⟩
  intro size hgt
  unfold heap_allocate
  rw [if_neg (by omega)]

/-- Witness for C6 realizing the spec scenario: with the cap at 1000 bytes
the state holding one 600-byte allocation is reachable, stays within the
cap, and a further 600-byte request fails with
VK_ERROR_OUT_OF_DEVICE_MEMORY leaving the heap unchanged. -/
theorem C6_heap_cap_invariant_witness :
    List.sum [600] ≤ 1000 ∧
    heap_allocate 1000 600 [600] = (VK_ERROR_OUT_OF_DEVICE_MEMORY, [600]) := by
  have h0 : HeapReachable 1000 ([] : List Nat) := HeapReachable.init
  have h1 := HeapReachable.alloc 600 h0
  have h1e : HeapReachable 1000 [600] := by
    simpa [heap_allocate] using h1
  have hmain := C6_heap_cap_invariant 1000 [600] h1e
  exact ⟨hmain.1, hmain.2 600 (by norm_num)⟩

/-- The modelled vmaAllocateMemoryPages either succeeds with exactly count
created allocations, or fails leaving the heap exactly as it was with no
created allocation surviving. -/
theorem vmaAllocateMemoryPages_spec (limit size : Nat) :
    ∀ (count : Nat) (heap : List Nat),
      ((vmaAllocateMemoryPages limit size count heap).1 = VK_SUCCESS ∧
        (vmaAllocateMemoryPages limit size count heap).2.1.length = count) ∨
      ((vmaAllocateMemoryPages limit size count heap).1 ≠ VK_SUCCESS ∧
        (vmaAllocateMemoryPages limit size count heap).2.1 = [] ∧
        (vmaAllocateMemoryPages limit size count heap).2.2 = heap) := by
  intro count
  induction count with
  | zero => intro heap; left; exact ⟨rfl, rfl⟩
  | succ n ih =>
    intro heap
    simp only [vmaAllocateMemoryPages]
    by_cases h1 : (heap_allocate limit size heap).1 = VK_SUCCESS
    · rw [if_pos h1]
      rcases ih (heap_allocate limit size heap).2 with ⟨ha, hb⟩ | ⟨ha, hb, hc⟩
      · rw [if_pos ha]
        left
        exact ⟨rfl, by simp [hb]⟩
      · rw [if_neg ha]
        right
        exact ⟨ha, rfl, rfl⟩
    · rw [if_neg h1]
      right
      exact ⟨h1, rfl, rfl⟩

/-- C7: allocate_memory_pages is all-or-nothing — for every request of count
allocations it either returns Ok with exactly count allocation/info pairs
(zipped in input order), or it returns the single engine error while the
engine state records no surviving allocation from the call and an unchanged
heap (partial successes rolled back). -/
theorem C7_allocate_pages_all_or_nothing (limit size count : Nat)
    (heap : List Nat) :
    (∃ pairs heap2,
        allocate_memory_pages limit size count heap = Except.ok (pairs, heap2) ∧
        pairs.length = count) ∨
    (∃ e, e ≠ VK_SUCCESS ∧
        allocate_memory_pages limit size count heap = Except.error e ∧
        (vmaAllocateMemoryPages limit size count heap).2.1 = [] ∧
        (vmaAllocateMemoryPages limit size count heap).2.2 = heap) := by
  rcases vmaAllocateMemoryPages_spec limit size count heap
    with ⟨ha, hb⟩ | ⟨ha, hb, hc⟩
  · left
    refine ⟨pair_allocations (vmaAllocateMemoryPages limit size count heap).2.1
        (vmaAllocateMemoryPages limit size count heap).2.1,
      (vmaAllocateMemoryPages limit size count heap).2.2, ?_, ?_⟩
    · simp only [allocate_memory_pages, ffi_to_result, ha, if_pos]
    · simp [pair_allocations, hb]
  · right
    refine ⟨(vmaAllocateMemoryPages limit size count heap).1, ha, ?_, hb, hc⟩
    simp only [allocate_memory_pages, ffi_to_result, if_neg ha]
